import Mathlib

/-!
Verification of the collaborative-ai-agent-framework task workflow.

Shallow embedding of the repository's core subsystems:
* `src/services/redis_service.py` — scratchpad cache (`RedisService`)
* `src/services/task_service.py`  — durable task store (`TaskService`)
* `src/worker/tasks.py`           — synchronous worker (`process_task_sync`,
  `resume_task_sync`)
* `src/api/routes/tasks.py`       — `create_task` / `approve_task` routes
* `src/agents/base_agent.py`      — `BaseAgent.update_status`
* `src/graph/workflow_graph.py`   — `finalization_node`

Python objects that may or may not be JSON-serializable are modelled by
`PyVal`; `json.dumps` / `json.loads` from the standard library are modelled
by their behaviour on serializable values: a stored payload is identified
with the decoded value it round-trips to, and serialization fails exactly on
values containing a non-JSON-serializable member (`PyVal.vobj`).
Exception-raising code paths return `Except PyErr`; code whose `try/except`
wrappers can never let an exception escape is modelled by a total function.
Database commit failure and cache reachability are modelled as explicit
boolean inputs (`dbFail`, `netOk`). Wall-clock timestamps are passed in as
string parameters.
-/

/-- Model of a Python runtime value as handled by the cache layer:
JSON-style data plus `vobj`, an arbitrary non-JSON-serializable object
(tagged by a description string). -/
inductive PyVal where
  | vstr : String → PyVal
  | vint : Int → PyVal
  | vbool : Bool → PyVal
  | vnone : PyVal
  | vlist : List PyVal → PyVal
  | vdict : List (String × PyVal) → PyVal
  | vobj : String → PyVal
deriving Repr

/-- Python `isinstance(v, dict)`. -/
def PyVal.isDict : PyVal → Bool
  | .vdict _ => true
  | _ => false

mutual
/-- Whether `json.dumps` succeeds on the value (no non-serializable member). -/
def PyVal.serializable : PyVal → Bool
  | .vstr _ => true
  | .vint _ => true
  | .vbool _ => true
  | .vnone => true
  | .vlist l => PyVal.serializableList l
  | .vdict l => PyVal.serializableDict l
  | .vobj _ => false

/-- Serializability of every element of a list. -/
def PyVal.serializableList : List PyVal → Bool
  | [] => true
  | v :: vs => PyVal.serializable v && PyVal.serializableList vs

/-- Serializability of every value of a dict. -/
def PyVal.serializableDict : List (String × PyVal) → Bool
  | [] => true
  | (_, v) :: vs => PyVal.serializable v && PyVal.serializableDict vs
end

/-- Exceptions raised by the modelled Python code. -/
inductive PyErr where
  | valueError : String → PyErr
  | attributeError : String → PyErr
  | integrityError : PyErr
  | operationalError : PyErr
  | httpException : Nat → PyErr
  | typeError : String → PyErr
deriving Repr, DecidableEq

/-! Association-list key/value maps, used for the Redis key space, for the
rows of the `tasks` table keyed by primary key, and for Python dicts. -/

/-- Lookup of the first binding of a key. -/
def lookupKV {α : Type} : List (String × α) → String → Option α
  | [], _ => none
  | (k, v) :: rest, key => if key = k then some v else lookupKV rest key

/-- Removal of every binding of a key. -/
def eraseKV {α : Type} (s : List (String × α)) (k : String) : List (String × α) :=
  s.filter (fun p => p.1 ≠ k)

/-- Overwriting insert. -/
def insertKV {α : Type} (s : List (String × α)) (k : String) (v : α) :
    List (String × α) :=
  (k, v) :: eraseKV s k

/-! Scratchpad cache: `src/services/redis_service.py`. -/

/-- State of the `RedisService` singleton: whether `_initialize_client`
succeeded (`clientOk`, i.e. `self._client is not None`), and the key space.
A stored payload is kept in decoded form (see the header comment on the
`json` model). -/
structure RedisSvc where
  clientOk : Bool
  store : List (String × PyVal)
deriving Repr

/-- Key builder `RedisKeyBuilder.task_workspace_key`: raises `ValueError` on
an empty `task_id` (the `isinstance(task_id, str)` half of the guard is
vacuous in the typed model), else produces `task:<task_id>:workspace`. -/
def task_workspace_key (task_id : String) : Except PyErr String :=
  if task_id = "" then
    .error (.valueError "task_id must be a non-empty string")
  else
    .ok ("task:" ++ task_id ++ ":workspace")

namespace RedisService

/-- Embedding of `RedisService.set_workspace`. Control flow from the source:
client check first (degraded mode returns `False` before any validation);
then `task_id` and `isinstance(data, dict)` validation, each raising
`ValueError`; then a `try` block in which `json.dumps` failure
(`TypeError`/`ValueError`) is caught and returns `False`; finally the
Redis `SET`, whose `RedisError` (modelled by `netOk = false`) is caught and
returns `False`. -/
def set_workspace (svc : RedisSvc) (netOk : Bool) (task_id : String)
    (data : PyVal) : Except PyErr (Bool × RedisSvc) :=
  if !svc.clientOk then .ok (false, svc)
  else if task_id = "" then
    .error (.valueError "task_id must be a non-empty string")
  else if !data.isDict then
    .error (.valueError "workspace data must be a dictionary")
  else if !data.serializable then .ok (false, svc)
  else if !netOk then .ok (false, svc)
  else
    .ok (true,
      { svc with store := insertKV svc.store ("task:" ++ task_id ++ ":workspace") data })

/-- Embedding of `RedisService.get_workspace`: degraded mode returns `None`
before validation; empty `task_id` raises `ValueError`; a `RedisError` on
`GET` returns `None`; a missing key returns `None`; a payload that does not
decode to a dict returns `None` (the `json.JSONDecodeError` branch is not
reachable for payloads representable as `PyVal`). -/
def get_workspace (svc : RedisSvc) (netOk : Bool) (task_id : String) :
    Except PyErr (Option PyVal) :=
  if !svc.clientOk then .ok none
  else if task_id = "" then
    .error (.valueError "task_id must be a non-empty string")
  else if !netOk then .ok none
  else
    match lookupKV svc.store ("task:" ++ task_id ++ ":workspace") with
    | none => .ok none
    | some v => if v.isDict then .ok (some v) else .ok none

/-- Embedding of `RedisService.delete_workspace`: degraded mode returns
`False` before validation; empty `task_id` raises `ValueError`; a
`RedisError` returns `False`; otherwise returns whether a key was removed. -/
def delete_workspace (svc : RedisSvc) (netOk : Bool) (task_id : String) :
    Except PyErr (Bool × RedisSvc) :=
  if !svc.clientOk then .ok (false, svc)
  else if task_id = "" then
    .error (.valueError "task_id must be a non-empty string")
  else if !netOk then .ok (false, svc)
  else
    .ok ((lookupKV svc.store ("task:" ++ task_id ++ ":workspace")).isSome,
      { svc with store := eraseKV svc.store ("task:" ++ task_id ++ ":workspace") })

end RedisService

/-! Durable task store: `src/services/task_service.py`. -/

/-- Row of the `tasks` table (class `Task` of `src/models/task_model.py`;
named `TaskRow` here because `Task` is a reserved core name). The wall-clock
`created_at` / `updated_at` columns are omitted: no verified claim mentions
them. Agent log entries are JSON dicts (`List PyVal`). -/
structure TaskRow where
  id : String
  prompt : String
  status : String
  result : Option String
  agent_logs : List PyVal
deriving Repr

/-- Contents of the `tasks` table, keyed by primary key `id`. -/
def TaskStore := List (String × TaskRow)

/-- Fresh row inserted by `TaskService.create_task`. -/
def mkTask (task_id prompt : String) : TaskRow :=
  { id := task_id, prompt := prompt, status := "PENDING", result := none,
    agent_logs := [] }

/-- Status whitelist `VALID_STATUSES` from `task_service.py`. -/
def VALID_STATUSES : List String :=
  ["PENDING", "RUNNING", "AWAITING_APPROVAL", "COMPLETED", "FAILED"]

namespace TaskService

/-- Embedding of `TaskService.create_task`: inserts a PENDING row with empty
logs and null result. The commit raises (`IntegrityError`, a
`SQLAlchemyError`) when the primary key already exists; a failing commit is
modelled by `dbFail`. `_get_session` rolls the transaction back and
re-raises, and `create_task` has no outer handler, so the error reaches the
caller. -/
def create_task (db : TaskStore) (dbFail : Bool) (task_id prompt : String) :
    Except PyErr TaskStore :=
  if dbFail then .error .operationalError
  else if (lookupKV db task_id).isSome then .error .integrityError
  else .ok (insertKV db task_id (mkTask task_id prompt))

/-- Embedding of `TaskService.update_task_status`. The whole session is
wrapped in `try/except Exception` that logs and returns, so this function
never raises: an invalid status, a missing task, or a failed commit (rolled
back by `_get_session`) all leave the store unchanged. -/
def update_task_status (db : TaskStore) (dbFail : Bool)
    (task_id status : String) : TaskStore :=
  if ¬ VALID_STATUSES.contains status then db
  else if dbFail then db
  else
    match lookupKV db task_id with
    | none => db
    | some t => insertKV db task_id { t with status := status }

/-- Embedding of `TaskService.append_agent_logs`: no-op on empty input, on a
missing task, and on a rolled-back commit; otherwise merges the new entries
after the existing ones inside one transaction. Never raises (outer
`try/except Exception` logs and returns). -/
def append_agent_logs (db : TaskStore) (dbFail : Bool) (task_id : String)
    (logs : List PyVal) : TaskStore :=
  if logs.isEmpty then db
  else if dbFail then db
  else
    match lookupKV db task_id with
    | none => db
    | some t => insertKV db task_id { t with agent_logs := t.agent_logs ++ logs }

/-- Embedding of `TaskService.store_result`: no-op on a missing task and on a
row already COMPLETED (idempotence guard); otherwise sets the result,
appends the given logs after the existing ones, and forces status
COMPLETED, all in one transaction. A rolled-back commit leaves the store
unchanged; never raises (outer `try/except Exception` logs and returns). -/
def store_result (db : TaskStore) (dbFail : Bool) (task_id result : String)
    (logs : List PyVal) : TaskStore :=
  if dbFail then db
  else
    match lookupKV db task_id with
    | none => db
    | some t =>
      if t.status = "COMPLETED" then db
      else
        insertKV db task_id
          { t with result := some result, status := "COMPLETED",
                   agent_logs := t.agent_logs ++ logs }

/-- Embedding of `TaskService.get_task`: returns the row snapshot, or `none`
when missing or when the read fails (caught and logged). -/
def get_task (db : TaskStore) (dbFail : Bool) (task_id : String) :
    Option TaskRow :=
  if dbFail then none else lookupKV db task_id

end TaskService

/-! Synchronous worker: `src/worker/tasks.py`. The Celery tasks
`process_task` and `resume_task` are thin wrappers around these functions.
Each store call's commit outcome is an explicit boolean; the log entries'
timestamps are parameters. -/

/-- Log entry appended by `process_task_sync`. -/
def researchLogEntry (ts : String) : PyVal :=
  .vdict [("agent", .vstr "ResearchAgent"),
          ("action", .vstr "Collected research data"),
          ("timestamp", .vstr ts)]

/-- Log entry appended by `resume_task_sync` before finalizing. -/
def writingLogEntry (ts : String) : PyVal :=
  .vdict [("agent", .vstr "WritingAgent"),
          ("action", .vstr "Generated final draft"),
          ("timestamp", .vstr ts)]

/-- Log entry passed by `resume_task_sync` to `store_result`. -/
def systemLogEntry (ts : String) : PyVal :=
  .vdict [("agent", .vstr "System"),
          ("action", .vstr "Workflow completed"),
          ("timestamp", .vstr ts)]

/-- Embedding of `process_task_sync`: status RUNNING, research log append,
status AWAITING_APPROVAL — three independent store calls. -/
def process_task_sync (db : TaskStore) (f1 f2 f3 : Bool) (ts task_id : String) :
    TaskStore :=
  let s1 := TaskService.update_task_status db f1 task_id "RUNNING"
  let s2 := TaskService.append_agent_logs s1 f2 task_id [researchLogEntry ts]
  TaskService.update_task_status s2 f3 task_id "AWAITING_APPROVAL"

/-- Embedding of `resume_task_sync`: appends the writing log, then stores the
hard-coded result string "Final synthesized response" via `store_result`.
The function references neither the workflow graph nor the Redis
scratchpad. -/
def resume_task_sync (db : TaskStore) (f1 f2 : Bool) (ts1 ts2 task_id : String) :
    TaskStore :=
  let s1 := TaskService.append_agent_logs db f1 task_id [writingLogEntry ts1]
  TaskService.store_result s1 f2 task_id "Final synthesized response"
    [systemLogEntry ts2]

/-! API routes: `src/api/routes/tasks.py`. The route module picks synchronous
(pytest) or Celery (production) dispatch from the `PYTEST_RUNNING`
environment variable, captured here as `DispatchMode`. -/

/-- Dispatch mode chosen at import time by the `TESTING` flag. -/
inductive DispatchMode where
  | testing
  | production
deriving Repr, DecidableEq

/-- Embedding of the `create_task` route body in synchronous (testing)
dispatch: create the PENDING record, then run `process_task_sync` inline,
then answer 202 with status string "PENDING". Any exception from the store
is converted to an HTTP 500. The `uuid4` identifier is a parameter. -/
def create_task_route (db : TaskStore) (dbFail f1 f2 f3 : Bool)
    (task_id prompt ts : String) : Except PyErr (TaskStore × String) :=
  match TaskService.create_task db dbFail task_id prompt with
  | .error _ => .error (.httpException 500)
  | .ok db1 => .ok (process_task_sync db1 f1 f2 f3 ts task_id, "PENDING")

/-- Result of the `approve_task` route: durable store, Celery resume queue
(an enqueued `resume_task.delay` is an appended task id), and the `status`
field of the `ApproveTaskResponse`. -/
structure ApproveOutcome where
  db : TaskStore
  queue : List String
  status : String

/-- Embedding of the `approve_task` route. Missing task: HTTP 404. Testing
dispatch: when the current status is AWAITING_APPROVAL, `resume_task_sync`
runs inline; the status is then re-fetched and returned. Production
dispatch: when the current status is AWAITING_APPROVAL, the durable status
is set to RUNNING, a resume job is enqueued, and "RUNNING" is returned;
any other status leaves the store and queue untouched and returns the
current status. -/
def approve_task (mode : DispatchMode) (db : TaskStore) (queue : List String)
    (ts1 ts2 task_id : String) : Except PyErr ApproveOutcome :=
  match TaskService.get_task db false task_id with
  | none => .error (.httpException 404)
  | some t =>
    match mode with
    | .testing =>
      let db' :=
        if t.status = "AWAITING_APPROVAL" then
          resume_task_sync db false false ts1 ts2 task_id
        else db
      match TaskService.get_task db' false task_id with
      | some t' => .ok ⟨db', queue, t'.status⟩
      | none => .error (.typeError "approve re-fetch found no task")
    | .production =>
      if t.status = "AWAITING_APPROVAL" then
        .ok ⟨TaskService.update_task_status db false task_id "RUNNING",
             queue ++ [task_id], "RUNNING"⟩
      else .ok ⟨db, queue, t.status⟩

/-! Agent-side status hook: `src/agents/base_agent.py`. -/

/-- Names of the methods defined on class `TaskService`
(`src/services/task_service.py`), in source order. Python resolves
`task_service.<name>` dynamically against this set; any other name raises
`AttributeError`. -/
def taskServiceMethods : List String :=
  ["_get_session", "_log_db_action", "create_task", "update_task_status",
   "append_agent_logs", "store_result", "get_task"]

/-- Embedding of `BaseAgent.update_status` (called by `ResearchAgent.run`
and `WritingAgent.run` with status "RUNNING"). Falsy `task_id` (None or "")
returns early. The lazy import of `task_service` succeeds (the module
exists), then `task_service.update_status(...)` is an attribute access
resolved dynamically: when the name is not among `taskServiceMethods` the
interpreter raises `AttributeError`, which the surrounding
`except Exception` catches and logs, leaving the store untouched. -/
def BaseAgent.update_status (db : TaskStore) (task_id : Option String)
    (status : String) : TaskStore :=
  match task_id with
  | none => db
  | some tid =>
    if tid = "" then db
    else if taskServiceMethods.contains "update_status" then
      TaskService.update_task_status db false tid status
    else db

/-! Workflow graph finalization: `src/graph/workflow_graph.py`. The graph is
compiled but never invoked by the worker (`process_task_sync` /
`resume_task_sync` call the task service directly), so its nodes act only
on the in-memory `WorkflowState` and the cache. -/

/-- In-memory LangGraph state (`src/graph/state.py`). Log entries are
(agent, action, timestamp) triples. -/
structure WorkflowState where
  task_id : String
  prompt : String
  research_data : Option String
  draft : Option String
  final_result : Option String
  status : String
  approved : Bool
  agent_logs : List (String × String × String)
deriving Repr

/-- Python truthiness of an `Optional[str]`: `None` and `""` are falsy. -/
def truthyOpt : Option String → Bool
  | none => false
  | some s => s != ""

/-- Embedding of `finalization_node`: copies a truthy draft to
`final_result`, sets the in-memory status mirror to "COMPLETED", deletes
the Redis workspace (failure merely logged), and appends a log entry. The
node performs no durable-store operation. Its `except` wrapper returns the
state, whose in-place mutations before the exception remain visible. -/
def finalization_node (st : WorkflowState) (cache : RedisSvc) (netOk : Bool)
    (ts : String) : WorkflowState × RedisSvc :=
  let st1 := { st with
    final_result := if truthyOpt st.draft then st.draft else st.final_result,
    status := "COMPLETED" }
  match RedisService.delete_workspace cache netOk st.task_id with
  | .error _ => (st1, cache)
  | .ok (_, cache') =>
    ({ st1 with agent_logs := st1.agent_logs ++
        [("System", "Workflow finalized and Redis scratchpad cleaned", ts)] },
     cache')

/-- System-level view of the executed resume path: `resume_task_sync`
contains no cache operation, so the scratchpad passes through unchanged
alongside the durable store it updates. -/
def resume_step (db : TaskStore) (cache : RedisSvc) (f1 f2 : Bool)
    (ts1 ts2 task_id : String) : TaskStore × RedisSvc :=
  (resume_task_sync db f1 f2 ts1 ts2 task_id, cache)

/-! System step relation for the approval-gating property (spec §8). A step
is one of the boundary operations of §6: task creation, worker processing,
the approve route in either dispatch mode, delivery of an enqueued resume
job (Celery at-least-once), and polling (`get_task`, which reads only and
is therefore the identity step). Commit-failure flags on the worker's
store calls are arbitrary in every step. The ghost field `approved`
records the ids for which an `approve_task` call found status
AWAITING_APPROVAL — that is, the tasks that passed the approval gate. -/

/-- Global system state: durable store, pending resume queue, and the ghost
record of gate passages. -/
structure Sys where
  db : TaskStore
  queue : List String
  approved : List String

/-- One boundary operation of the system. -/
inductive Step : Sys → Sys → Prop where
  | createStep (s : Sys) (id prompt : String) (d : TaskStore)
      (hrun : TaskService.create_task s.db false id prompt = Except.ok d) :
      Step s ⟨d, s.queue, s.approved⟩
  | processStep (s : Sys) (f1 f2 f3 : Bool) (ts id : String) :
      Step s ⟨process_task_sync s.db f1 f2 f3 ts id, s.queue, s.approved⟩
  | approveProdStep (s : Sys) (id : String) (t : TaskRow)
      (hget : TaskService.get_task s.db false id = some t)
      (hst : t.status = "AWAITING_APPROVAL") :
      Step s ⟨TaskService.update_task_status s.db false id "RUNNING",
              s.queue ++ [id], id :: s.approved⟩
  | approveTestStep (s : Sys) (id ts1 ts2 : String) (f1 f2 : Bool) (t : TaskRow)
      (hget : TaskService.get_task s.db false id = some t)
      (hst : t.status = "AWAITING_APPROVAL") :
      Step s ⟨resume_task_sync s.db f1 f2 ts1 ts2 id, s.queue, id :: s.approved⟩
  | resumeStep (s : Sys) (id ts1 ts2 : String) (f1 f2 : Bool)
      (hq : id ∈ s.queue) :
      Step s ⟨resume_task_sync s.db f1 f2 ts1 ts2 id, s.queue.erase id,
              s.approved⟩
  | pollStep (s : Sys) (id : String) : Step s s

/-- States reachable from the empty system. -/
inductive Reachable : Sys → Prop where
  | init : Reachable ⟨[], [], []⟩
  | step {s s' : Sys} : Reachable s → Step s s' → Reachable s'


/-- Invariant carried through the step relation: every enqueued resume job
and every COMPLETED row belongs to a task that passed the approval gate. -/
def SysInv (s : Sys) : Prop :=
  (∀ id, id ∈ s.queue → id ∈ s.approved) ∧
  (∀ id t, lookupKV s.db id = some t → t.status = "COMPLETED" →
    id ∈ s.approved)

/-! Concrete executions used as witnesses: the end-to-end scenario of spec
§8 (submit "Test task", worker runs to the approval gate, approve in
synchronous dispatch). -/

/-- Store after `create_task` of task "t1" with prompt "Test task". -/
def demoDb1 : TaskStore := insertKV [] "t1" (mkTask "t1" "Test task")

/-- Store after the worker ran `process_task_sync` on "t1". -/
def demoDb2 : TaskStore := process_task_sync demoDb1 false false false "ts" "t1"

/-- Store after approval resumed and finalized "t1". -/
def demoDb3 : TaskStore := resume_task_sync demoDb2 false false "tw" "tc" "t1"

/-- System state after create, process and a testing-mode approval. -/
def demoSys : Sys := ⟨demoDb3, [], ["t1"]⟩

/-- Row of "t1" while parked at the approval gate. -/
def demoAwaitingRow : TaskRow :=
  { id := "t1", prompt := "Test task", status := "AWAITING_APPROVAL",
    result := none, agent_logs := [researchLogEntry "ts"] }

/-- Row of "t1" after finalization. -/
def demoCompletedRow : TaskRow :=
  { id := "t1", prompt := "Test task", status := "COMPLETED",
    result := some "Final synthesized response",
    agent_logs := [researchLogEntry "ts", writingLogEntry "tw",
                   systemLogEntry "tc"] }

theorem lookupKV_eraseKV_self {α : Type} (s : List (String × α)) (k : String) :
    lookupKV (eraseKV s k) k = none := by
  induction s with
  | nil => rfl
  | cons p rest ih =>
    by_cases hp : p.1 = k
    · simpa [eraseKV, List.filter_cons, hp] using ih
    · have hk : ¬ k = p.1 := fun hh => hp hh.symm
      simpa [eraseKV, List.filter_cons, hp, lookupKV, hk] using ih

theorem lookupKV_eraseKV_ne {α : Type} (s : List (String × α)) (k key : String)
    (h : key ≠ k) : lookupKV (eraseKV s k) key = lookupKV s key := by
  induction s with
  | nil => rfl
  | cons p rest ih =>
    by_cases hp : p.1 = k
    · have hk : ¬ key = p.1 := fun hh => h (hh.trans hp)
      simpa [eraseKV, List.filter_cons, hp, lookupKV, hk, h] using ih
    · by_cases hk : key = p.1
      · simp [eraseKV, List.filter_cons, hp, lookupKV, hk]
      · simpa [eraseKV, List.filter_cons, hp, lookupKV, hk] using ih

theorem lookupKV_insertKV_self {α : Type} (s : List (String × α)) (k : String)
    (v : α) : lookupKV (insertKV s k v) k = some v := by
  simp [insertKV, lookupKV]

theorem lookupKV_insertKV_ne {α : Type} (s : List (String × α)) (k key : String)
    (v : α) (h : key ≠ k) :
    lookupKV (insertKV s k v) key = lookupKV s key := by
  simp [insertKV, lookupKV, h, lookupKV_eraseKV_ne s k key h]

/-! Provenance lemmas: where a row visible after a store operation can come
from. -/

theorem create_task_ok_shape (db : TaskStore) (f : Bool) (id prompt : String)
    (d : TaskStore) (h : TaskService.create_task db f id prompt = Except.ok d) :
    f = false ∧ lookupKV db id = none ∧ d = insertKV db id (mkTask id prompt) := by
  unfold TaskService.create_task at h
  split at h
  · exact absurd h (by simp)
  · rename_i hf
    split at h
    · exact absurd h (by simp)
    · rename_i hne
      refine ⟨Bool.eq_false_iff.mpr hf, ?_, by simpa using h.symm⟩
      cases hl : lookupKV db id with
      | none => rfl
      | some t => exact absurd (by simp [hl]) hne

theorem update_task_status_lookup (db : TaskStore) (f : Bool)
    (id st id' : String) (t' : TaskRow)
    (h : lookupKV (TaskService.update_task_status db f id st) id' = some t') :
    lookupKV db id' = some t' ∨ (id' = id ∧ t'.status = st) := by
  unfold TaskService.update_task_status at h
  split at h
  · exact Or.inl h
  · split at h
    · exact Or.inl h
    · rename_i t hsome
      split at h
      · exact Or.inl h
      · rename_i t hl
        by_cases hid : id' = id
        · subst hid
          rw [lookupKV_insertKV_self] at h
          right
          refine ⟨rfl, ?_⟩
          cases h
          rfl
        · rw [lookupKV_insertKV_ne db id id' _ hid] at h
          exact Or.inl h

theorem append_agent_logs_lookup (db : TaskStore) (f : Bool) (id : String)
    (logs : List PyVal) (id' : String) (t' : TaskRow)
    (h : lookupKV (TaskService.append_agent_logs db f id logs) id' = some t') :
    ∃ t0, lookupKV db id' = some t0 ∧ t'.status = t0.status := by
  unfold TaskService.append_agent_logs at h
  split at h
  · exact ⟨t', h, rfl⟩
  · split at h
    · exact ⟨t', h, rfl⟩
    · split at h
      · exact ⟨t', h, rfl⟩
      · rename_i t hl
        by_cases hid : id' = id
        · subst hid
          rw [lookupKV_insertKV_self] at h
          refine ⟨t, hl, ?_⟩
          cases h
          rfl
        · rw [lookupKV_insertKV_ne db id id' _ hid] at h
          exact ⟨t', h, rfl⟩

theorem store_result_lookup (db : TaskStore) (f : Bool) (id res : String)
    (logs : List PyVal) (id' : String) (t' : TaskRow)
    (h : lookupKV (TaskService.store_result db f id res logs) id' = some t') :
    lookupKV db id' = some t' ∨ id' = id := by
  unfold TaskService.store_result at h
  split at h
  · exact Or.inl h
  · split at h
    · exact Or.inl h
    · rename_i t hl
      split at h
      · exact Or.inl h
      · by_cases hid : id' = id
        · exact Or.inr hid
        · rw [lookupKV_insertKV_ne db id id' _ hid] at h
          exact Or.inl h

theorem process_task_sync_completed (db : TaskStore) (f1 f2 f3 : Bool)
    (ts id id' : String) (t' : TaskRow)
    (h : lookupKV (process_task_sync db f1 f2 f3 ts id) id' = some t')
    (hc : t'.status = "COMPLETED") :
    ∃ t0, lookupKV db id' = some t0 ∧ t0.status = "COMPLETED" := by
  unfold process_task_sync at h
  rcases update_task_status_lookup _ _ _ _ _ _ h with h2 | ⟨_, hst⟩
  · rcases append_agent_logs_lookup _ _ _ _ _ _ h2 with ⟨t1, h1, hstat⟩
    rcases update_task_status_lookup _ _ _ _ _ _ h1 with h0 | ⟨_, hst0⟩
    · exact ⟨t1, h0, by rw [← hstat, hc]⟩
    · rw [hst0] at hstat
      rw [hstat] at hc
      exact absurd hc (by decide)
  · rw [hst] at hc
    exact absurd hc (by decide)

theorem resume_task_sync_completed (db : TaskStore) (f1 f2 : Bool)
    (ts1 ts2 id id' : String) (t' : TaskRow)
    (h : lookupKV (resume_task_sync db f1 f2 ts1 ts2 id) id' = some t')
    (hc : t'.status = "COMPLETED") :
    id' = id ∨ ∃ t0, lookupKV db id' = some t0 ∧ t0.status = "COMPLETED" := by
  unfold resume_task_sync at h
  rcases store_result_lookup _ _ _ _ _ _ _ h with h1 | hid
  · rcases append_agent_logs_lookup _ _ _ _ _ _ h1 with ⟨t0, h0, hstat⟩
    exact Or.inr ⟨t0, h0, by rw [← hstat, hc]⟩
  · exact Or.inl hid

/-! Preservation of the gate invariant. -/

theorem sysInv_init : SysInv ⟨[], [], []⟩ := by
  constructor
  · intro id h
    exact absurd h (List.not_mem_nil id)
  · intro id t h
    exact absurd h (by simp [lookupKV])

theorem sysInv_step {s s' : Sys} (hs : SysInv s) (hstep : Step s s') :
    SysInv s' := by
  obtain ⟨hq, hdb⟩ := hs
  cases hstep with
  | createStep id prompt d hrun =>
    obtain ⟨-, hnone, hd⟩ := create_task_ok_shape _ _ _ _ _ hrun
    refine ⟨hq, ?_⟩
    intro id' t' hl hc
    subst hd
    by_cases hid : id' = id
    · subst hid
      rw [lookupKV_insertKV_self] at hl
      cases hl
      simp [mkTask] at hc
    · rw [lookupKV_insertKV_ne _ _ _ _ hid] at hl
      exact hdb id' t' hl hc
  | processStep f1 f2 f3 ts id =>
    refine ⟨hq, ?_⟩
    intro id' t' hl hc
    obtain ⟨t0, h0, hs0⟩ := process_task_sync_completed _ _ _ _ _ _ _ _ hl hc
    exact hdb id' t0 h0 hs0
  | approveProdStep id t hget hst =>
    constructor
    · intro id' hmem
      rcases List.mem_append.mp hmem with hmem | hmem
      · exact List.mem_cons_of_mem _ (hq id' hmem)
      · rw [List.mem_singleton.mp hmem]
        exact List.mem_cons_self _ _
    · intro id' t' hl hc
      have hl' : lookupKV (TaskService.update_task_status s.db false id "RUNNING") id' = some t' := hl
      rcases update_task_status_lookup _ _ _ _ _ _ hl' with h0 | ⟨_, hrun⟩
      · exact List.mem_cons_of_mem _ (hdb id' t' h0 hc)
      · rw [hrun] at hc
        exact absurd hc (by decide)
  | approveTestStep id ts1 ts2 f1 f2 t hget hst =>
    refine ⟨fun id' hm => List.mem_cons_of_mem _ (hq id' hm), ?_⟩
    intro id' t' hl hc
    have hl' : lookupKV (resume_task_sync s.db f1 f2 ts1 ts2 id) id' = some t' := hl
    rcases resume_task_sync_completed _ _ _ _ _ _ _ _ hl' hc with hid | ⟨t0, h0, hs0⟩
    · rw [hid]
      exact List.mem_cons_self _ _
    · exact List.mem_cons_of_mem _ (hdb id' t0 h0 hs0)
  | resumeStep id ts1 ts2 f1 f2 hmem =>
    refine ⟨fun id' hm => hq id' (List.mem_of_mem_erase hm), ?_⟩
    intro id' t' hl hc
    have hl' : lookupKV (resume_task_sync s.db f1 f2 ts1 ts2 id) id' = some t' := hl
    rcases resume_task_sync_completed _ _ _ _ _ _ _ _ hl' hc with hid | ⟨t0, h0, hs0⟩
    · rw [hid]
      exact hq id hmem
    · exact hdb id' t0 h0 hs0
  | pollStep id => exact ⟨hq, hdb⟩

theorem sysInv_reachable {s : Sys} (hr : Reachable s) : SysInv s := by
  induction hr with
  | init => exact sysInv_init
  | step _ hstep ih => exact sysInv_step ih hstep

/-! Shape lemmas: the two possible outcomes of each mutating store call. -/

theorem update_task_status_shape (db : TaskStore) (f : Bool) (id st : String) :
    TaskService.update_task_status db f id st = db ∨
    ∃ t, lookupKV db id = some t ∧
      TaskService.update_task_status db f id st =
        insertKV db id { t with status := st } := by
  unfold TaskService.update_task_status
  split
  · exact Or.inl rfl
  · split
    · exact Or.inl rfl
    · cases hl : lookupKV db id with
      | none => exact Or.inl rfl
      | some t => exact Or.inr ⟨t, rfl, rfl⟩

theorem append_agent_logs_shape (db : TaskStore) (f : Bool) (id : String)
    (logs : List PyVal) :
    TaskService.append_agent_logs db f id logs = db ∨
    ∃ t, lookupKV db id = some t ∧
      TaskService.append_agent_logs db f id logs =
        insertKV db id { t with agent_logs := t.agent_logs ++ logs } := by
  unfold TaskService.append_agent_logs
  split
  · exact Or.inl rfl
  · split
    · exact Or.inl rfl
    · cases hl : lookupKV db id with
      | none => exact Or.inl rfl
      | some t => exact Or.inr ⟨t, rfl, rfl⟩

theorem resume_task_sync_on_row (db : TaskStore) (ts1 ts2 id : String)
    (t : TaskRow) (hl : lookupKV db id = some t)
    (hnc : ¬ t.status = "COMPLETED") :
    resume_task_sync db false false ts1 ts2 id =
      insertKV
        (insertKV db id { t with agent_logs := t.agent_logs ++ [writingLogEntry ts1] })
        id
        { t with
          status := "COMPLETED",
          result := some "Final synthesized response",
          agent_logs := (t.agent_logs ++ [writingLogEntry ts1]) ++
            [systemLogEntry ts2] } := by
  unfold resume_task_sync TaskService.append_agent_logs TaskService.store_result
  simp [hl, lookupKV_insertKV_self, hnc]

/-- C1: for every stored record whose status is COMPLETED,
`TaskService.store_result` leaves the store entirely unchanged (result not
overwritten, no log entries appended, status still COMPLETED); for every
stored record whose status is not COMPLETED, the call sets the result,
appends the given logs after the existing ones, and sets status
COMPLETED. -/
theorem store_result_completed_guard (db : TaskStore) (id res : String)
    (logs : List PyVal) (t : TaskRow) (hl : lookupKV db id = some t) :
    (t.status = "COMPLETED" →
      TaskService.store_result db false id res logs = db) ∧
    (¬ t.status = "COMPLETED" →
      lookupKV (TaskService.store_result db false id res logs) id =
        some { t with
          result := some res, status := "COMPLETED",
          agent_logs := t.agent_logs ++ logs }) := by
  constructor
  · intro hc
    unfold TaskService.store_result
    simp [hl, hc]
  · intro hnc
    unfold TaskService.store_result
    simp [hl, hnc, lookupKV_insertKV_self]

/-- Witness for C1 at concrete inputs: a COMPLETED row is untouched by a
second finalize, and a PENDING row is finalized with result, status and
logs set. -/
theorem store_result_completed_guard_witness :
    TaskService.store_result [("t1", demoCompletedRow)] false "t1" "other" [] =
      [("t1", demoCompletedRow)] ∧
    lookupKV (TaskService.store_result [("b", mkTask "b" "p")] false "b" "r" []) "b" =
      some (⟨"b", "p", "COMPLETED", some "r", []⟩ : TaskRow) := by
  constructor
  · exact (store_result_completed_guard [("t1", demoCompletedRow)] "t1" "other"
      [] demoCompletedRow rfl).1 rfl
  · have h := (store_result_completed_guard [("b", mkTask "b" "p")] "b" "r" []
      (mkTask "b" "p") rfl).2 (by simp [mkTask])
    simpa [mkTask] using h

/-- C3 counterexample: with a failing commit, `update_task_status`,
`append_agent_logs` and `store_result` return normally with the store
unchanged — the rolled-back error is caught and logged, not surfaced to
the caller as the claim requires. -/
theorem failing_write_swallowed_cex :
    TaskService.update_task_status [("t1", mkTask "t1" "p")] true "t1" "RUNNING" =
      [("t1", mkTask "t1" "p")] ∧
    TaskService.append_agent_logs [("t1", mkTask "t1" "p")] true "t1"
      [researchLogEntry "ts"] = [("t1", mkTask "t1" "p")] ∧
    TaskService.store_result [("t1", mkTask "t1" "p")] true "t1" "r" [] =
      [("t1", mkTask "t1" "p")] :=
  ⟨rfl, rfl, rfl⟩

/-- C3 amended: on a failing database write every store operation rolls the
transaction back, so no partial update is ever visible; but the error is
re-raised to the caller only by `create_task` — `update_task_status`,
`append_agent_logs` and `store_result` catch it, log it and return
normally. -/
theorem failing_write_rollback_surfacing (db : TaskStore)
    (id st res prompt : String) (logs : List PyVal) :
    TaskService.update_task_status db true id st = db ∧
    TaskService.append_agent_logs db true id logs = db ∧
    TaskService.store_result db true id res logs = db ∧
    TaskService.create_task db true id prompt =
      Except.error PyErr.operationalError := by
  refine ⟨?_, ?_, rfl, rfl⟩
  · unfold TaskService.update_task_status
    split <;> rfl
  · unfold TaskService.append_agent_logs
    split <;> rfl

/-- C9: `BaseAgent.update_status` (the hook `ResearchAgent.run` and
`WritingAgent.run` invoke) never changes the durable task store: the
dynamic call `task_service.update_status` names no method of `TaskService`
(the store method is `update_task_status`), so the `AttributeError` is
caught and only logged. -/
theorem agent_update_status_noop (db : TaskStore) (task_id : Option String)
    (status : String) : BaseAgent.update_status db task_id status = db := by
  unfold BaseAgent.update_status
  cases task_id with
  | none => rfl
  | some tid =>
    show (if tid = "" then db
      else if taskServiceMethods.contains "update_status" = true then
        TaskService.update_task_status db false tid status
      else db) = db
    by_cases h : tid = ""
    · rw [if_pos h]
    · rw [if_neg h]
      rfl

/-- C10: when the Redis client failed to initialize, `set_workspace`,
`get_workspace` and `delete_workspace` return False / None / False for
every input — including an empty `task_id` — because the
client-availability check precedes the `task_id` validation, so the
documented `ValueError` is never raised in degraded mode. -/
theorem degraded_cache_no_raise (store : List (String × PyVal)) (netOk : Bool)
    (task_id : String) (data : PyVal) :
    RedisService.set_workspace ⟨false, store⟩ netOk task_id data =
      Except.ok (false, ⟨false, store⟩) ∧
    RedisService.get_workspace ⟨false, store⟩ netOk task_id = Except.ok none ∧
    RedisService.delete_workspace ⟨false, store⟩ netOk task_id =
      Except.ok (false, ⟨false, store⟩) :=
  ⟨rfl, rfl, rfl⟩

/-- C5: in every reachable state of the step relation (create, process,
approve in either dispatch mode, resume delivery, poll), a task whose
durable status is COMPLETED passed the approval gate: its id is in the
ghost `approved` record, which grows exactly when an `approve_task` call
finds the task's status AWAITING_APPROVAL. -/
theorem completed_implies_approved {s : Sys} (hr : Reachable s)
    (id : String) (t : TaskRow) (hl : lookupKV s.db id = some t)
    (hc : t.status = "COMPLETED") : id ∈ s.approved :=
  (sysInv_reachable hr).2 id t hl hc

theorem demoSys_reachable : Reachable demoSys :=
  Reachable.step
    (Reachable.step
      (Reachable.step Reachable.init
        (Step.createStep ⟨[], [], []⟩ "t1" "Test task" demoDb1 rfl))
      (Step.processStep ⟨demoDb1, [], []⟩ false false false "ts" "t1"))
    (Step.approveTestStep ⟨demoDb2, [], []⟩ "t1" "tw" "tc" false false
      demoAwaitingRow rfl rfl)

/-- Witness for C5: in the concrete reachable run create → process →
approve, task "t1" is COMPLETED and its id is recorded as having passed
the approval gate. -/
theorem completed_implies_approved_witness :
    lookupKV demoSys.db "t1" = some demoCompletedRow ∧
    "t1" ∈ demoSys.approved :=
  ⟨rfl, completed_implies_approved demoSys_reachable "t1" demoCompletedRow rfl rfl⟩

/-- C2 counterexample: with the synchronous dispatch the route module uses
under pytest, `create_task` runs `process_task_sync` inline before
returning, so an immediate `get_task` observes AWAITING_APPROVAL — the
claim's "PENDING or RUNNING, never AWAITING_APPROVAL" fails. -/
theorem create_then_get_awaiting_cex :
    create_task_route [] false false false false "t1" "Test task" "ts" =
      Except.ok (demoDb2, "PENDING") ∧
    TaskService.get_task demoDb2 false "t1" = some demoAwaitingRow ∧
    ¬ (demoAwaitingRow.status = "PENDING" ∨
       demoAwaitingRow.status = "RUNNING") := by
  refine ⟨rfl, rfl, ?_⟩
  intro h
  rcases h with h | h <;> simp [demoAwaitingRow] at h

theorem taskP_update (db : TaskStore) (f : Bool) (id st : String)
    (hst : st = "RUNNING" ∨ st = "AWAITING_APPROVAL")
    (h : ∃ t, lookupKV db id = some t ∧
      (t.status = "PENDING" ∨ t.status = "RUNNING" ∨
        t.status = "AWAITING_APPROVAL") ∧ t.result = none) :
    ∃ t, lookupKV (TaskService.update_task_status db f id st) id = some t ∧
      (t.status = "PENDING" ∨ t.status = "RUNNING" ∨
        t.status = "AWAITING_APPROVAL") ∧ t.result = none := by
  obtain ⟨t, hl, hs, hr⟩ := h
  rcases update_task_status_shape db f id st with heq | ⟨t0, hl0, heq⟩
  · rw [heq]
    exact ⟨t, hl, hs, hr⟩
  · have ht0 : t0 = t := Option.some.inj (hl0.symm.trans hl)
    subst ht0
    rw [heq, lookupKV_insertKV_self]
    refine ⟨_, rfl, ?_, hr⟩
    rcases hst with h1 | h1
    · exact Or.inr (Or.inl h1)
    · exact Or.inr (Or.inr h1)

theorem taskP_append (db : TaskStore) (f : Bool) (id : String)
    (logs : List PyVal)
    (h : ∃ t, lookupKV db id = some t ∧
      (t.status = "PENDING" ∨ t.status = "RUNNING" ∨
        t.status = "AWAITING_APPROVAL") ∧ t.result = none) :
    ∃ t, lookupKV (TaskService.append_agent_logs db f id logs) id = some t ∧
      (t.status = "PENDING" ∨ t.status = "RUNNING" ∨
        t.status = "AWAITING_APPROVAL") ∧ t.result = none := by
  obtain ⟨t, hl, hs, hr⟩ := h
  rcases append_agent_logs_shape db f id logs with heq | ⟨t0, hl0, heq⟩
  · rw [heq]
    exact ⟨t, hl, hs, hr⟩
  · have ht0 : t0 = t := Option.some.inj (hl0.symm.trans hl)
    subst ht0
    rw [heq, lookupKV_insertKV_self]
    exact ⟨_, rfl, hs, hr⟩

/-- C2 amended: for every valid prompt and fresh id, after `create_task`
and any prefix of the synchronous worker's three store calls — each with an
arbitrary commit outcome — `get_task` returns a record whose status is
PENDING, RUNNING or AWAITING_APPROVAL and whose result is still null; in
particular the task is never observed COMPLETED right after creation, but
AWAITING_APPROVAL is observable as soon as the inline worker finishes. -/
theorem create_then_get_never_completed (db : TaskStore)
    (id prompt ts : String) (d : TaskStore) (f1 f2 f3 : Bool)
    (hrun : TaskService.create_task db false id prompt = Except.ok d) :
    ∀ db' ∈ [d,
      TaskService.update_task_status d f1 id "RUNNING",
      TaskService.append_agent_logs
        (TaskService.update_task_status d f1 id "RUNNING") f2 id
        [researchLogEntry ts],
      process_task_sync d f1 f2 f3 ts id],
      ∃ t, TaskService.get_task db' false id = some t ∧
        (t.status = "PENDING" ∨ t.status = "RUNNING" ∨
          t.status = "AWAITING_APPROVAL") ∧ t.result = none := by
  obtain ⟨-, hnone, hd⟩ := create_task_ok_shape _ _ _ _ _ hrun
  have h0 : ∃ t, lookupKV d id = some t ∧
      (t.status = "PENDING" ∨ t.status = "RUNNING" ∨
        t.status = "AWAITING_APPROVAL") ∧ t.result = none := by
    subst hd
    exact ⟨mkTask id prompt, lookupKV_insertKV_self _ _ _, Or.inl rfl, rfl⟩
  have h1 := taskP_update d f1 id "RUNNING" (Or.inl rfl) h0
  have h2 := taskP_append _ f2 id [researchLogEntry ts] h1
  have h3 := taskP_update _ f3 id "AWAITING_APPROVAL" (Or.inr rfl) h2
  intro db' hmem
  rcases List.mem_cons.mp hmem with rfl | hmem
  · exact h0
  rcases List.mem_cons.mp hmem with rfl | hmem
  · exact h1
  rcases List.mem_cons.mp hmem with rfl | hmem
  · exact h2
  rcases List.mem_cons.mp hmem with rfl | hmem
  · exact h3
  exact absurd hmem (List.not_mem_nil db')

/-- Witness for the amended C2: the concrete scenario with prompt
"Test task" after the full synchronous worker run. -/
theorem create_then_get_never_completed_witness :
    ∃ t, TaskService.get_task (process_task_sync demoDb1 false false false
      "ts" "t1") false "t1" = some t ∧
      (t.status = "PENDING" ∨ t.status = "RUNNING" ∨
        t.status = "AWAITING_APPROVAL") ∧ t.result = none :=
  create_then_get_never_completed [] "t1" "Test task" "ts" demoDb1
    false false false rfl
    (process_task_sync demoDb1 false false false "ts" "t1")
    (List.mem_cons_of_mem _ (List.mem_cons_of_mem _
      (List.mem_cons_of_mem _ (List.mem_cons_self _ _))))

/-- C6 counterexample: with the client initialized, a well-formed `task_id`
and dict data containing a non-JSON-serializable value, `set_workspace`
returns False instead of raising — the `json.dumps` failure is caught
inside the method. -/
theorem set_workspace_unserializable_cex :
    RedisService.set_workspace ⟨true, []⟩ true "t1"
      (.vdict [("blob", .vobj "open socket")]) =
      Except.ok (false, ⟨true, []⟩) := rfl

/-- C6 amended: `set_workspace` raises (a `ValueError`) exactly when the
client is initialized and either `task_id` is empty or `data` is not a
dict; dict data with unserializable members returns False without raising,
transient unavailability returns False, and in degraded mode (client not
initialized) it never raises for any input. -/
theorem set_workspace_raise_characterization (svc : RedisSvc) (netOk : Bool)
    (task_id : String) (data : PyVal) :
    (∃ e, RedisService.set_workspace svc netOk task_id data =
      Except.error e) ↔
    (svc.clientOk = true ∧ (task_id = "" ∨ data.isDict = false)) := by
  unfold RedisService.set_workspace
  by_cases hc : svc.clientOk
  · by_cases ht : task_id = ""
    · simp [hc, ht]
    · by_cases hd : data.isDict
      · by_cases hs : data.serializable
        · by_cases hn : netOk
          · simp [hc, ht, hd, hs, hn]
          · simp [hc, ht, hd, hs, hn]
        · simp [hc, ht, hd, hs]
      · simp [hc, ht, hd]
  · simp [hc]

/-- C7: with the cache client initialized and the store reachable, a
successful `set_workspace(task_id, {"research_data": X})` followed by
`get_workspace(task_id)` returns the stored dict, whose "research_data"
member equals X; after `delete_workspace(task_id)`, `get_workspace`
returns null. -/
theorem workspace_roundtrip (svc : RedisSvc) (task_id : String) (X : PyVal)
    (hid : ¬ task_id = "") (hc : svc.clientOk = true)
    (hs : X.serializable = true) :
    RedisService.set_workspace svc true task_id
        (.vdict [("research_data", X)]) =
      Except.ok (true, (⟨svc.clientOk, insertKV svc.store
        ("task:" ++ task_id ++ ":workspace")
        (.vdict [("research_data", X)])⟩ : RedisSvc)) ∧
    RedisService.get_workspace (⟨svc.clientOk, insertKV svc.store
        ("task:" ++ task_id ++ ":workspace")
        (.vdict [("research_data", X)])⟩ : RedisSvc) true task_id =
      Except.ok (some (.vdict [("research_data", X)])) ∧
    lookupKV [("research_data", X)] "research_data" = some X ∧
    RedisService.delete_workspace (⟨svc.clientOk, insertKV svc.store
        ("task:" ++ task_id ++ ":workspace")
        (.vdict [("research_data", X)])⟩ : RedisSvc) true task_id =
      Except.ok (true, (⟨svc.clientOk, eraseKV (insertKV svc.store
        ("task:" ++ task_id ++ ":workspace")
        (.vdict [("research_data", X)]))
        ("task:" ++ task_id ++ ":workspace")⟩ : RedisSvc)) ∧
    RedisService.get_workspace (⟨svc.clientOk, eraseKV (insertKV svc.store
        ("task:" ++ task_id ++ ":workspace")
        (.vdict [("research_data", X)]))
        ("task:" ++ task_id ++ ":workspace")⟩ : RedisSvc) true task_id =
      Except.ok none := by
  refine ⟨?_, ?_, ?_, ?_, ?_⟩
  · unfold RedisService.set_workspace
    simp [hc, hid, PyVal.isDict, PyVal.serializable, PyVal.serializableDict, hs]
  · unfold RedisService.get_workspace
    simp [hc, hid, lookupKV_insertKV_self, PyVal.isDict]
  · simp [lookupKV]
  · unfold RedisService.delete_workspace
    simp [hc, hid, lookupKV_insertKV_self]
  · unfold RedisService.get_workspace
    simp [hc, hid, lookupKV_eraseKV_self]

/-- Witness for C7 at a concrete service state, task id and payload. -/
theorem workspace_roundtrip_witness :
    RedisService.set_workspace ⟨true, []⟩ true "t1"
        (.vdict [("research_data", .vstr "notes")]) =
      Except.ok (true, (⟨true, insertKV []
        ("task:" ++ "t1" ++ ":workspace")
        (.vdict [("research_data", .vstr "notes")])⟩ : RedisSvc)) ∧
    RedisService.get_workspace (⟨true, insertKV []
        ("task:" ++ "t1" ++ ":workspace")
        (.vdict [("research_data", .vstr "notes")])⟩ : RedisSvc) true "t1" =
      Except.ok (some (.vdict [("research_data", .vstr "notes")])) ∧
    lookupKV [("research_data", PyVal.vstr "notes")] "research_data" =
      some (.vstr "notes") ∧
    RedisService.delete_workspace (⟨true, insertKV []
        ("task:" ++ "t1" ++ ":workspace")
        (.vdict [("research_data", .vstr "notes")])⟩ : RedisSvc) true "t1" =
      Except.ok (true, (⟨true, eraseKV (insertKV []
        ("task:" ++ "t1" ++ ":workspace")
        (.vdict [("research_data", .vstr "notes")]))
        ("task:" ++ "t1" ++ ":workspace")⟩ : RedisSvc)) ∧
    RedisService.get_workspace (⟨true, eraseKV (insertKV []
        ("task:" ++ "t1" ++ ":workspace")
        (.vdict [("research_data", .vstr "notes")]))
        ("task:" ++ "t1" ++ ":workspace")⟩ : RedisSvc) true "t1" =
      Except.ok none :=
  workspace_roundtrip ⟨true, []⟩ "t1" (.vstr "notes") (by decide) rfl rfl

theorem get_task_eq_lookup (db : TaskStore) (id : String) :
    TaskService.get_task db false id = lookupKV db id := rfl

/-- C4 counterexample: running the executed finalize/resume step on a task
parked at the approval gate with a populated scratchpad leaves the cache —
including the task's workspace entry — completely untouched, and stores
the hard-coded result string rather than a draft computed by the writing
stage; the claim's "deletes the task's scratchpad workspace entry" fails.
-/
theorem resume_keeps_scratchpad_cex :
    (resume_step [("t1", demoAwaitingRow)]
        ⟨true, [("task:t1:workspace",
          PyVal.vdict [("research_data", PyVal.vstr "X")])]⟩
        false false "tw" "tc" "t1").2 =
      ⟨true, [("task:t1:workspace",
        PyVal.vdict [("research_data", PyVal.vstr "X")])]⟩ ∧
    lookupKV (resume_step [("t1", demoAwaitingRow)]
        ⟨true, [("task:t1:workspace",
          PyVal.vdict [("research_data", PyVal.vstr "X")])]⟩
        false false "tw" "tc" "t1").2.store "task:t1:workspace" =
      some (PyVal.vdict [("research_data", PyVal.vstr "X")]) ∧
    lookupKV (resume_step [("t1", demoAwaitingRow)]
        ⟨true, [("task:t1:workspace",
          PyVal.vdict [("research_data", PyVal.vstr "X")])]⟩
        false false "tw" "tc" "t1").1 "t1" = some demoCompletedRow :=
  ⟨rfl, rfl, rfl⟩

/-- C4 amended: the executed resume step (`resume_task_sync`, dispatched by
`approve_task`) sets the durable status to COMPLETED with the fixed result
string "Final synthesized response" and appended writing/system logs, but
performs no cache operation, so the scratchpad workspace entry survives;
draft promotion and scratchpad deletion exist only in the workflow graph's
`finalization_node`, which the resume path never invokes and which acts
only on the in-memory state and the cache — it performs no durable-store
write. -/
theorem resume_and_finalize_behavior (db : TaskStore) (cache : RedisSvc)
    (f1 f2 : Bool) (ts1 ts2 id : String) (t : TaskRow)
    (hl : lookupKV db id = some t) (hnc : ¬ t.status = "COMPLETED")
    (st : WorkflowState) (d : String) (hd : st.draft = some d)
    (hne : ¬ d = "") (hcc : cache.clientOk = true)
    (hti : ¬ st.task_id = "") (ts : String) :
    (resume_step db cache f1 f2 ts1 ts2 id).2 = cache ∧
    lookupKV (resume_step db cache false false ts1 ts2 id).1 id =
      some { t with
        status := "COMPLETED",
        result := some "Final synthesized response",
        agent_logs := (t.agent_logs ++ [writingLogEntry ts1]) ++
          [systemLogEntry ts2] } ∧
    (finalization_node st cache true ts).1.final_result = some d ∧
    (finalization_node st cache true ts).1.status = "COMPLETED" ∧
    lookupKV (finalization_node st cache true ts).2.store
      ("task:" ++ st.task_id ++ ":workspace") = none := by
  refine ⟨rfl, ?_, ?_, ?_, ?_⟩
  · show lookupKV (resume_task_sync db false false ts1 ts2 id) id = _
    rw [resume_task_sync_on_row db ts1 ts2 id t hl hnc]
    exact lookupKV_insertKV_self _ _ _
  · unfold finalization_node RedisService.delete_workspace
    simp [hcc, hti, truthyOpt, hd, hne]
  · unfold finalization_node RedisService.delete_workspace
    simp [hcc, hti]
  · unfold finalization_node RedisService.delete_workspace
    simp [hcc, hti, lookupKV_eraseKV_self]

/-- Witness for the amended C4 at a concrete store, cache and in-memory
state. -/
theorem resume_and_finalize_behavior_witness :
    (resume_step [("t1", demoAwaitingRow)] ⟨true, []⟩
      false false "tw" "tc" "t1").2 = ⟨true, []⟩ ∧
    lookupKV (resume_step [("t1", demoAwaitingRow)] ⟨true, []⟩
        false false "tw" "tc" "t1").1 "t1" =
      some { demoAwaitingRow with
        status := "COMPLETED",
        result := some "Final synthesized response",
        agent_logs := (demoAwaitingRow.agent_logs ++ [writingLogEntry "tw"]) ++
          [systemLogEntry "tc"] } ∧
    (finalization_node ⟨"t1", "Test task", none, some "Draft text", none,
      "AWAITING_APPROVAL", true, []⟩ ⟨true, []⟩ true "tf").1.final_result =
      some "Draft text" ∧
    (finalization_node ⟨"t1", "Test task", none, some "Draft text", none,
      "AWAITING_APPROVAL", true, []⟩ ⟨true, []⟩ true "tf").1.status =
      "COMPLETED" ∧
    lookupKV (finalization_node ⟨"t1", "Test task", none, some "Draft text",
      none, "AWAITING_APPROVAL", true, []⟩ ⟨true, []⟩ true "tf").2.store
      ("task:" ++ "t1" ++ ":workspace") = none :=
  resume_and_finalize_behavior [("t1", demoAwaitingRow)] ⟨true, []⟩
    false false "tw" "tc" "t1" demoAwaitingRow rfl (by decide)
    ⟨"t1", "Test task", none, some "Draft text", none, "AWAITING_APPROVAL",
      true, []⟩ "Draft text" rfl (by decide) rfl (by decide) "tf"

/-- C8 counterexample: in synchronous (testing) dispatch, approving a task
parked at AWAITING_APPROVAL runs the resume inline — the durable status
jumps straight to COMPLETED and the route reports "COMPLETED", not the
claimed transition to RUNNING. -/
theorem approve_testing_mode_cex :
    approve_task .testing [("t1", demoAwaitingRow)] [] "tw" "tc" "t1" =
      Except.ok ⟨resume_task_sync [("t1", demoAwaitingRow)] false false
        "tw" "tc" "t1", [], "COMPLETED"⟩ ∧
    ¬ ("COMPLETED" = "RUNNING") := by
  exact ⟨rfl, by decide⟩

/-- C8 amended: for an existing task, `approve_task` in production
(asynchronous) dispatch transitions the durable status to RUNNING and
enqueues a dispatch resume exactly when the current status is
AWAITING_APPROVAL, and is otherwise a store and queue no-op returning the
current status; in synchronous (testing) dispatch the same guard holds,
but an AWAITING_APPROVAL task is resumed inline, ending COMPLETED with no
durable RUNNING transition, and any other status is likewise a no-op
returning the current status. -/
theorem approve_task_behavior (db : TaskStore) (queue : List String)
    (ts1 ts2 id : String) (t : TaskRow)
    (hget : TaskService.get_task db false id = some t) :
    (t.status = "AWAITING_APPROVAL" →
      approve_task .production db queue ts1 ts2 id =
        Except.ok ⟨TaskService.update_task_status db false id "RUNNING",
          queue ++ [id], "RUNNING"⟩) ∧
    (¬ t.status = "AWAITING_APPROVAL" →
      approve_task .production db queue ts1 ts2 id =
        Except.ok ⟨db, queue, t.status⟩) ∧
    (t.status = "AWAITING_APPROVAL" →
      approve_task .testing db queue ts1 ts2 id =
        Except.ok ⟨resume_task_sync db false false ts1 ts2 id, queue,
          "COMPLETED"⟩) ∧
    (¬ t.status = "AWAITING_APPROVAL" →
      approve_task .testing db queue ts1 ts2 id =
        Except.ok ⟨db, queue, t.status⟩) := by
  have hl : lookupKV db id = some t := hget
  refine ⟨?_, ?_, ?_, ?_⟩
  · intro hpos
    unfold approve_task
    rw [hget]
    simp [hpos]
  · intro hneg
    unfold approve_task
    rw [hget]
    simp [hneg, hget]
  · intro hpos
    have hnc : ¬ t.status = "COMPLETED" := by
      rw [hpos]
      decide
    have hres := resume_task_sync_on_row db ts1 ts2 id t hl hnc
    unfold approve_task
    rw [hget]
    simp only [hpos, if_pos]
    rw [get_task_eq_lookup, hres, lookupKV_insertKV_self]
  · intro hneg
    unfold approve_task
    rw [hget]
    simp [hneg, hget]

/-- Witness for the amended C8 at a concrete awaiting task and a concrete
already-completed task. -/
theorem approve_task_behavior_witness :
    approve_task .production [("t1", demoAwaitingRow)] [] "tw" "tc" "t1" =
      Except.ok ⟨TaskService.update_task_status [("t1", demoAwaitingRow)]
        false "t1" "RUNNING", [] ++ ["t1"], "RUNNING"⟩ ∧
    approve_task .production [("t1", demoCompletedRow)] [] "tw" "tc" "t1" =
      Except.ok ⟨[("t1", demoCompletedRow)], [], demoCompletedRow.status⟩ :=
  ⟨(approve_task_behavior [("t1", demoAwaitingRow)] [] "tw" "tc" "t1"
      demoAwaitingRow rfl).1 rfl,
   (approve_task_behavior [("t1", demoCompletedRow)] [] "tw" "tc" "t1"
      demoCompletedRow rfl).2.1 (by decide)⟩
